import Mathlib

/-!
Shallow embedding of the wallet ledger and transaction settlement subsystem
of the zippy-vtu backend (Express/MySQL).  Monetary amounts (MySQL
DECIMAL(10,2) read via parseFloat) are modelled as rationals; the database
tables `users`, `transactions` and `referrals` are modelled as lists of
records; each HTTP route handler becomes a pure function from a ledger
state and the request inputs (plus the externally supplied gateway /
provider responses) to a new ledger state and a response record.  Where
the source wraps its writes in a database transaction (purchase
settlement, transfer, referral reward) the model commits all of them in
one step, or none when the store signals an error; the verify/webhook
credit, which the source issues as two separate auto-commit statements
with no transaction, is modelled by its crash-free run (`verifyPayment`,
`paystackWebhook`) together with an explicit partial state
(`verifyFlipOnly`) for a crash between the two statements.
-/

namespace Zippy

/-- A row of the `users` table (src/unnamed/part_005, initializeDatabase). -/
structure User where
  id : Nat
  email : String
  full_name : String
  referral_code : String
  referred_by : Option String
  wallet_balance : ℚ
deriving Repr, DecidableEq

/-- The `type` enum of the `transactions` table. -/
inductive TxType
  | airtime | data | bill | wallet_fund | withdrawal | p2p_transfer
deriving Repr, DecidableEq

/-- The `status` enum of the `transactions` table (the code additionally
writes the string 'cancelled' in the verify/webhook failure branch). -/
inductive TxStatus
  | pending | success | failed | cancelled
deriving Repr, DecidableEq

/-- The JSON `details` blob written by the various routes, as a tagged
union of the shapes the source actually serialises. -/
inductive TxDetails
  | fund (payment_method : String) (original_amount fee : ℚ)
  | vtu (network phone : String) (variation_code : Option String)
      (amount : ℚ) (serviceID request_id : String)
  | transferDebit (recipient_email recipient_name : String)
  | transferCredit (sender_email sender_name : String)
  | referralReward (referred_user_id : Nat)
  | generic (raw : String)
deriving Repr, DecidableEq

/-- A row of the `transactions` table. -/
structure TxRow where
  user_id : Nat
  txType : TxType
  amount : ℚ
  reference : Option String
  status : TxStatus
  external_reference : Option String
  details : TxDetails
deriving Repr, DecidableEq

/-- The `status` enum of the `referrals` table. -/
inductive RefStatus
  | pending | paid
deriving Repr, DecidableEq

/-- A row of the `referrals` table. -/
structure Referral where
  referrer_id : Nat
  referred_id : Nat
  reward : ℚ
  status : RefStatus
deriving Repr, DecidableEq

/-- The ledger store: user balances plus the transaction and referral logs.
New transaction rows are consed at the head of the list. -/
structure LedgerState where
  users : List User
  transactions : List TxRow
  referrals : List Referral
deriving Repr, DecidableEq

/-- `SELECT ... FROM users WHERE id = ?` followed by `users[0]`. -/
def findUser (uid : Nat) (us : List User) : Option User :=
  us.find? (fun u => decide (u.id = uid))

/-- `UPDATE users SET wallet_balance = wallet_balance + ? WHERE id = ?`
(a negative delta models the subtracting update). -/
def updateBalance (uid : Nat) (d : ℚ) (us : List User) : List User :=
  us.map (fun u => if u.id = uid then { u with wallet_balance := u.wallet_balance + d } else u)

/-- `UPDATE ... WHERE id = <id of the first row returned by the lookup>`:
rewrite the first row satisfying the lookup predicate. -/
def updateFirst (p : α → Bool) (f : α → α) : List α → List α
  | [] => []
  | x :: xs => if p x then f x :: xs else x :: updateFirst p f xs

/-- The lookup `WHERE reference = ? AND status = 'pending'` used by
POST /verify and the Paystack webhook. -/
def isPendingWithRef (ref : String) (t : TxRow) : Bool :=
  decide (t.reference = some ref) && decide (t.status = TxStatus.pending)

/-- Wallet balance of a user as the API reports it (`users[0].wallet_balance`). -/
def balanceOf (uid : Nat) (s : LedgerState) : Option ℚ :=
  (findUser uid s.users).map User.wallet_balance

/-! ## POST /api/wallet/fund (src/routes/wallet.js, Initiate-funding) -/

/-- The Paystack fee computed by POST /fund: 1.5 percent below 2500,
1.5 percent plus a 100 flat fee at or above 2500. -/
def paystackFee (amount : ℚ) : ℚ :=
  if amount < 2500 then amount * (15 / 1000) else amount * (15 / 1000) + 100

structure FundResult where
  httpStatus : Nat
  success : Bool
  reference : Option String
deriving Repr, DecidableEq

/-- POST /api/wallet/fund.  `reference` stands for the generated
`ZP_<time>_<random>` string; `paystackOk` is the gateway initialisation
outcome.  On success a `pending` `wallet_fund` transaction row is stored
with the NET amount (gross minus fee). -/
def fundWallet (s : LedgerState) (userId : Nat) (amount : ℚ)
    (reference : String) (paystackOk : Bool) : LedgerState × FundResult :=
  if amount < 100 then (s, ⟨400, false, none⟩)
  else
    match findUser userId s.users with
    | none => (s, ⟨404, false, none⟩)
    | some _ =>
      if !paystackOk then (s, ⟨400, false, none⟩)
      else
        let fee := paystackFee amount
        let net := amount - fee
        let row : TxRow :=
          { user_id := userId, txType := TxType.wallet_fund, amount := net,
            reference := some reference, status := TxStatus.pending,
            external_reference := none,
            details := TxDetails.fund "paystack" amount fee }
        ({ s with transactions := row :: s.transactions }, ⟨200, true, some reference⟩)

/-! ## POST /api/wallet/verify (src/routes/wallet.js, Verify-funding) -/

/-- The gateway verification response consumed by POST /verify:
`verifyResponse.data.status` (api_ok), then `data.{status, reference, amount}`. -/
structure GatewayVerify where
  api_ok : Bool
  gw_status : String
  gw_reference : String
  gw_amount : ℚ
deriving Repr, DecidableEq

structure VerifyResult where
  httpStatus : Nat
  success : Bool
  message : String
deriving Repr, DecidableEq

/-- POST /api/wallet/verify.  Looks up the transaction with the given
reference in `pending` status; on gateway status 'success' it flips the
row to `success` and credits the row's stored amount to the row's owner;
otherwise it flips the row to `cancelled` ('abandoned') or `failed`.
In the source the status flip and the balance credit are TWO separate
auto-commit UPDATE statements with no surrounding database transaction;
this function is the run in which both statements execute (the crash-free
run), and `verifyFlipOnly` below is the state the source can leave when
the process dies between the two statements. -/
def verifyPayment (s : LedgerState) (reference : Option String)
    (gw : GatewayVerify) : LedgerState × VerifyResult :=
  match reference with
  | none => (s, ⟨400, false, "Reference is required"⟩)
  | some ref =>
    if !gw.api_ok then (s, ⟨400, false, "Payment verification failed"⟩)
    else
      match s.transactions.find? (isPendingWithRef ref) with
      | none => (s, ⟨404, false, "Transaction not found"⟩)
      | some t =>
        if gw.gw_status = "success" then
          ({ s with
              transactions := updateFirst (isPendingWithRef ref)
                (fun r => { r with status := TxStatus.success,
                                   external_reference := some gw.gw_reference })
                s.transactions,
              users := updateBalance t.user_id t.amount s.users },
           ⟨200, true, "Payment verified and wallet funded successfully"⟩)
        else
          let st := if gw.gw_status = "abandoned" then TxStatus.cancelled else TxStatus.failed
          ({ s with
              transactions := updateFirst (isPendingWithRef ref)
                (fun r => { r with status := st,
                                   external_reference := some gw.gw_reference })
                s.transactions },
           ⟨400, false, "Payment " ++ gw.gw_status⟩)

/-- The ledger state after only the FIRST of POST /verify's two
auto-commit UPDATE statements (the pending-to-success status flip with
external reference `eref`) has committed and the process has died before
the balance-credit UPDATE: the source wraps neither statement in a
database transaction, so this partial state is reachable. -/
def verifyFlipOnly (s : LedgerState) (ref : String) (eref : String) : LedgerState :=
  { s with
      transactions := updateFirst (isPendingWithRef ref)
        (fun r => { r with status := TxStatus.success,
                           external_reference := some eref })
        s.transactions }

/-! ## POST /api/wallet/webhook/paystack (src/routes/wallet.js) -/

structure SimpleResult where
  httpStatus : Nat
  success : Bool
deriving Repr, DecidableEq

/-- POST /api/wallet/webhook/paystack.  The route is mounted without the
auth middleware and reads only `req.body` (`event` and `data`); the
`_sigHeader` parameter stands for the request's signature header, which
the handler never inspects.  On event 'charge.success' and body status
'success' it flips the matching pending row to `success` and credits the
ROW's stored amount (the body's `amount` field is destructured but never
used).  The lookup is by reference and pending status only — the row's
`type` is not checked, so a body naming a pending airtime/data reference
credits that debit-type row's amount.  As in POST /verify, the flip and
the credit are two separate auto-commit UPDATEs in the source with no
surrounding transaction; this function is the crash-free run. -/
def paystackWebhook (s : LedgerState) (_sigHeader : Option String)
    (event : String) (body_reference : String) (_body_amount : ℚ)
    (body_status : String) (data_id : String) : LedgerState × SimpleResult :=
  if event = "charge.success" then
    match s.transactions.find? (isPendingWithRef body_reference) with
    | none => (s, ⟨404, false⟩)
    | some t =>
      if body_status = "success" then
        ({ s with
            transactions := updateFirst (isPendingWithRef body_reference)
              (fun r => { r with status := TxStatus.success,
                                 external_reference := some data_id })
              s.transactions,
            users := updateBalance t.user_id t.amount s.users },
         ⟨200, true⟩)
      else
        let st := if body_status = "abandoned" then TxStatus.cancelled else TxStatus.failed
        ({ s with
            transactions := updateFirst (isPendingWithRef body_reference)
              (fun r => { r with status := st,
                                 external_reference := some data_id })
              s.transactions },
         ⟨200, true⟩)
  else (s, ⟨200, true⟩)

/-! ## POST /api/vtu/airtime and POST /api/vtu/data (src/unnamed/part_003) -/

/-- Which of the two VTpass purchase routes is running; they differ only
in the validator bounds, the serviceID map, the transaction `type`, and
whether `variation_code` is sent and recorded. -/
inductive VtuKind
  | airtime | data
deriving Repr, DecidableEq

/-- The `serviceMap` lookup of the airtime route. -/
def serviceMapAirtime (network : String) : Option String :=
  if network = "mtn" then some "mtn"
  else if network = "glo" then some "glo"
  else if network = "airtel" then some "airtel"
  else if network = "etisalat" then some "etisalat"
  else none

/-- The `serviceMap` lookup of the data route. -/
def serviceMapData (network : String) : Option String :=
  if network = "mtn" then some "mtn-data"
  else if network = "glo" then some "glo-data"
  else if network = "airtel" then some "airtel-data"
  else if network = "etisalat" then some "etisalat-data"
  else none

/-- The express-validator guards of the two routes (`phoneValid` stands
for `isMobilePhone()`): airtime checks network against a fixed list and
50 <= amount <= 50000; data checks network and variation_code non-empty
and 50 <= amount <= 500000. -/
def vtuValidation (kind : VtuKind) (network : String) (phoneValid : Bool)
    (variation_code : Option String) (amount : ℚ) : Bool :=
  phoneValid &&
    (match kind with
     | VtuKind.airtime =>
        decide (network = "mtn" ∨ network = "glo" ∨ network = "airtel" ∨ network = "etisalat")
          && decide (50 ≤ amount ∧ amount ≤ 50000)
     | VtuKind.data =>
        decide (network ≠ "")
          && decide (variation_code ≠ none ∧ variation_code ≠ some "")
          && decide (50 ≤ amount ∧ amount ≤ 500000))

/-- The serviceID map used by the route of the given kind. -/
def vtuServiceMap (kind : VtuKind) (network : String) : Option String :=
  match kind with
  | VtuKind.airtime => serviceMapAirtime network
  | VtuKind.data => serviceMapData network

/-- The transaction row the airtime/data route inserts: the raw `amount`,
the request id as `reference`, and a details blob that carries the
`variation_code` only for data purchases. -/
def vtuRow (kind : VtuKind) (userId : Nat) (network phone : String)
    (variation_code : Option String) (amount : ℚ) (serviceID request_id : String)
    (st : TxStatus) : TxRow :=
  { user_id := userId,
    txType := match kind with | VtuKind.airtime => TxType.airtime | VtuKind.data => TxType.data,
    amount := amount, reference := some request_id, status := st,
    external_reference := none,
    details := TxDetails.vtu network phone
      (match kind with | VtuKind.airtime => none | VtuKind.data => variation_code)
      amount serviceID request_id }

structure PurchaseResult where
  providerCalled : Bool
  httpStatus : Nat
  success : Bool
  status : String
  error : Option String
deriving Repr, DecidableEq

/-- POST /api/vtu/airtime and /data.  `request_id` stands for the
generated VTpass request id (also used as the stored `reference`);
`requeryOk` is whether the immediate status requery call succeeded, and
`txStatus` is `statusResponse.content.transactions.status` (the code
defaults a missing field to "unknown", which is just another non-matching
string here).  `storeOk` is whether the ledger-store writes of the chosen
branch succeed; in every branch a store failure is caught, logged and the
already-chosen response payload is still sent, and in the delivered
branch the balance update and the transaction insert are wrapped in one
database transaction, so on failure neither write commits. -/
def purchase (kind : VtuKind) (s : LedgerState) (userId : Nat)
    (network phone : String) (phoneValid : Bool) (variation_code : Option String)
    (amount : ℚ) (request_id : String) (requeryOk : Bool) (txStatus : String)
    (storeOk : Bool) : LedgerState × PurchaseResult :=
  if !vtuValidation kind network phoneValid variation_code amount then
    (s, ⟨false, 400, false, "", none⟩)
  else
    match findUser userId s.users with
    | none => (s, ⟨false, 404, false, "", some "User not found"⟩)
    | some u =>
      if u.wallet_balance < amount then
        (s, ⟨false, 400, false, "", some "Insufficient wallet balance"⟩)
      else
        match vtuServiceMap kind network with
        | none => (s, ⟨false, 400, false, "", some "Invalid network selected"⟩)
        | some serviceID =>
          -- the purchase call to the provider happens here, then the requery
          if !requeryOk then
            (s, ⟨true, 500, false, "", some "Unable to confirm transaction status"⟩)
          else
            let row := fun st =>
              vtuRow kind userId network phone variation_code amount serviceID request_id st
            if txStatus = "delivered" then
              if storeOk then
                (⟨updateBalance userId (-amount) s.users,
                  row TxStatus.success :: s.transactions, s.referrals⟩,
                 ⟨true, 200, true, "success", none⟩)
              else (s, ⟨true, 200, true, "success", none⟩)
            else if txStatus = "pending" ∨ txStatus = "initiated" then
              if storeOk then
                ({ s with transactions := row TxStatus.pending :: s.transactions },
                 ⟨true, 200, true, "pending", none⟩)
              else (s, ⟨true, 200, true, "pending", none⟩)
            else
              if storeOk then
                ({ s with transactions := row TxStatus.failed :: s.transactions },
                 ⟨true, 200, false, "failed", none⟩)
              else (s, ⟨true, 200, false, "failed", none⟩)

/-! ## POST /api/wallet/transfer (src/routes/wallet.js) -/

/-- POST /api/wallet/transfer.  `referenceBase` stands for the generated
`ZP_P2P_<time>_<random>` string.  After resolving the sender (a missing
sender row crashes `sender[0].email` and surfaces as a 500), the route
rejects self-transfer by email, resolves the recipient by email, checks
the sender balance, and then in one database transaction debits the
sender, credits the recipient and inserts the two `p2p_transfer` legs
with references `<base>_DEBIT` and `<base>_CREDIT`. -/
def transferFunds (s : LedgerState) (senderId : Nat) (recipient_email : String)
    (amount : ℚ) (referenceBase : String) : LedgerState × SimpleResult :=
  if amount < 1 then (s, ⟨400, false⟩)
  else
    match findUser senderId s.users with
    | none => (s, ⟨500, false⟩)
    | some sender =>
      if sender.email = recipient_email then (s, ⟨400, false⟩)
      else
        match s.users.find? (fun u => decide (u.email = recipient_email)) with
        | none => (s, ⟨404, false⟩)
        | some recipient =>
          if sender.wallet_balance < amount then (s, ⟨400, false⟩)
          else
            let debitRow : TxRow :=
              { user_id := senderId, txType := TxType.p2p_transfer,
                amount := amount, reference := some (referenceBase ++ "_DEBIT"),
                status := TxStatus.success, external_reference := none,
                details := TxDetails.transferDebit recipient_email recipient.full_name }
            let creditRow : TxRow :=
              { user_id := recipient.id, txType := TxType.p2p_transfer,
                amount := amount, reference := some (referenceBase ++ "_CREDIT"),
                status := TxStatus.success, external_reference := none,
                details := TxDetails.transferCredit sender.email sender.full_name }
            (⟨updateBalance recipient.id amount (updateBalance senderId (-amount) s.users),
              creditRow :: debitRow :: s.transactions, s.referrals⟩,
             ⟨200, true⟩)

/-! ## POST /api/referral/process-reward (src/routes/referral.js) -/

structure RewardResult where
  httpStatus : Nat
  success : Bool
  message : String
deriving Repr, DecidableEq

/-- POST /api/referral/process-reward.  Resolves the caller's
`referred_by` code to the referrer, locates the (referrer, referred)
referral row, no-ops when it is already `paid`, and otherwise in one
database transaction flips it to `paid`, credits the referrer with the
fixed 200 reward and inserts a `success` `wallet_fund` transaction row
whose INSERT carries no `reference` column (so the row's reference is
NULL). -/
def processReward (s : LedgerState) (userId : Nat) : LedgerState × RewardResult :=
  match findUser userId s.users with
  | none => (s, ⟨200, true, "No referral to process"⟩)
  | some u =>
    match u.referred_by with
    | none => (s, ⟨200, true, "No referral to process"⟩)
    | some code =>
      match s.users.find? (fun v => decide (v.referral_code = code)) with
      | none => (s, ⟨400, false, "Referrer not found"⟩)
      | some referrer =>
        match s.referrals.find?
            (fun r => decide (r.referrer_id = referrer.id) && decide (r.referred_id = userId)) with
        | none => (s, ⟨400, false, "Referral record not found"⟩)
        | some refRow =>
          if refRow.status = RefStatus.paid then
            (s, ⟨200, true, "Reward already processed"⟩)
          else
            let rewardAmount : ℚ := 200
            let row : TxRow :=
              { user_id := referrer.id, txType := TxType.wallet_fund,
                amount := rewardAmount, reference := none,
                status := TxStatus.success, external_reference := none,
                details := TxDetails.referralReward userId }
            (⟨updateBalance referrer.id rewardAmount s.users,
              row :: s.transactions,
              updateFirst
                (fun r => decide (r.referrer_id = referrer.id) && decide (r.referred_id = userId))
                (fun r => { r with status := RefStatus.paid }) s.referrals⟩,
             ⟨200, true, "Referral reward processed successfully"⟩)

/-! ## POST /api/vtu/requery (src/unnamed/part_003) -/

structure RequeryResult where
  httpStatus : Nat
  body : Option String
deriving Repr, DecidableEq

/-- POST /api/vtu/requery.  Validates that `request_id` is non-empty,
forwards it to the provider's /requery endpoint and returns the
provider's response verbatim (`providerBody`, `none` when the provider
call fails).  The handler performs no ledger-store reads or writes. -/
def requeryTransaction (s : LedgerState) (request_id : String)
    (providerBody : Option String) : LedgerState × RequeryResult :=
  if request_id = "" then (s, ⟨400, none⟩)
  else
    match providerBody with
    | none => (s, ⟨500, none⟩)
    | some b => (s, ⟨200, some b⟩)

/-! ## The ledger invariant: balance = signed sum of success transactions -/

/-- Whether a transaction row records a credit of its owner (wallet
funding and the credit leg of a p2p transfer) rather than a debit
(purchases and the debit leg of a p2p transfer).  The p2p direction is
the `transfer_type` tag the route stores in the `details` blob. -/
def isCreditRow (t : TxRow) : Bool :=
  match t.txType with
  | TxType.wallet_fund => true
  | TxType.p2p_transfer =>
    match t.details with
    | TxDetails.transferCredit _ _ => true
    | _ => false
  | _ => false

/-- The signed contribution of one transaction row to its owner's
balance: `+amount` for a success credit, `-amount` for a success debit,
`0` for any non-success status. -/
def signedAmount (t : TxRow) : ℚ :=
  if t.status = TxStatus.success then
    (if isCreditRow t then t.amount else -t.amount)
  else 0

/-- Signed sum of the success-status transactions owned by `uid`. -/
def signedSum (uid : Nat) : List TxRow → ℚ
  | [] => 0
  | t :: ts => (if t.user_id = uid then signedAmount t else 0) + signedSum uid ts

/-- The spec's global invariant: every user's balance equals the signed
sum of that user's success-status transactions. -/
def BalanceInvariant (s : LedgerState) : Prop :=
  ∀ u ∈ s.users, u.wallet_balance = signedSum u.id s.transactions


/-! ### The requery proxy touches no state -/

/-- POST /vtu/requery never changes the ledger state. -/
theorem requery_fst (s : LedgerState) (request_id : String)
    (providerBody : Option String) :
    (requeryTransaction s request_id providerBody).1 = s := by
  unfold requeryTransaction
  by_cases h : request_id = ""
  · simp [h]
  · cases providerBody <;> simp [h]


/-! ### Lookup lemmas -/

theorem findUser_id {uid : Nat} {us : List User} {u : User}
    (h : findUser uid us = some u) : u.id = uid := by
  have hp := List.find?_some h
  simpa using hp

theorem findUser_updateBalance (uid2 uid : Nat) (d : ℚ) (us : List User) :
    findUser uid2 (updateBalance uid d us)
      = (findUser uid2 us).map
          (fun u => if u.id = uid then { u with wallet_balance := u.wallet_balance + d } else u) := by
  have hcomp : ((fun u => decide (u.id = uid2)) ∘
      (fun u => if u.id = uid then { u with wallet_balance := u.wallet_balance + d } else u))
      = fun u : User => decide (u.id = uid2) := by
    funext u
    by_cases h : u.id = uid <;> simp [Function.comp, h]
  unfold findUser updateBalance
  rw [List.find?_map, hcomp]

/-- Reading the balance of the updated user after an update. -/
theorem findUser_updateBalance_self {uid : Nat} {us : List User} {u : User}
    (d : ℚ) (hu : findUser uid us = some u) :
    findUser uid (updateBalance uid d us)
      = some { u with wallet_balance := u.wallet_balance + d } := by
  rw [findUser_updateBalance, hu]
  simp [findUser_id hu]

/-- Reading the balance of a different user after an update. -/
theorem findUser_updateBalance_other {uid2 uid : Nat} {us : List User}
    (d : ℚ) (h : uid2 ≠ uid) :
    findUser uid2 (updateBalance uid d us) = findUser uid2 us := by
  rw [findUser_updateBalance]
  cases hu : findUser uid2 us with
  | none => rfl
  | some u =>
    have hid : u.id = uid2 := findUser_id hu
    simp [hid, h]

/-- `updateFirst` rewrites exactly the first hit of the predicate. -/
theorem updateFirst_append (p : α → Bool) (f : α → α) (t : α) (bs : List α)
    (hp : p t = true) :
    ∀ (as : List α), (∀ a ∈ as, p a = false) →
      updateFirst p f (as ++ t :: bs) = as ++ f t :: bs := by
  intro as
  induction as with
  | nil => intro _; simp [updateFirst, hp]
  | cons x xs ih =>
    intro h
    have hx : p x = false := h x (List.mem_cons_self x xs)
    simp only [List.cons_append, updateFirst, hx, Bool.false_eq_true, if_false, List.append_eq]
    rw [ih (fun a ha => h a (List.mem_cons_of_mem x ha))]

/-! ## Concrete fixtures used by the witnesses and counterexamples -/

/-- Two registered users, Bob referred by Alice, both with zero balance. -/
def exUsers : List User :=
  [⟨1, "a@x.com", "Alice", "RC1", none, 0⟩,
   ⟨2, "b@x.com", "Bob", "RC2", some "RC1", 0⟩]

/-- Fresh ledger: the two users, no transactions, one pending referral. -/
def exInit : LedgerState := ⟨exUsers, [], [⟨1, 2, 200, RefStatus.pending⟩]⟩

/-- Alice's user row once her wallet holds 500. -/
def exAlice : User := ⟨1, "a@x.com", "Alice", "RC1", none, 500⟩

/-- Alice with a settled balance of 500 backed by a success funding row. -/
def exFunded : LedgerState :=
  ⟨[exAlice, ⟨2, "b@x.com", "Bob", "RC2", some "RC1", 0⟩],
   [⟨1, TxType.wallet_fund, 500, some "F0", TxStatus.success, some "PSK0",
     TxDetails.fund "paystack" 500 0⟩],
   [⟨1, 2, 200, RefStatus.pending⟩]⟩

/-- The pending wallet_fund row POST /fund stores for gross 1000. -/
def exFundRow : TxRow :=
  ⟨1, TxType.wallet_fund, 985, some "R1", TxStatus.pending, none,
   TxDetails.fund "paystack" 1000 15⟩

/-- A ledger holding one pending wallet_fund transaction of net amount
985 with reference R1 (the state POST /fund leaves for gross 1000). -/
def exPendingFund : LedgerState :=
  ⟨exUsers, [exFundRow], [⟨1, 2, 200, RefStatus.pending⟩]⟩

/-- A consistent ledger for the C1 run: one user holding 200 backed by
one success funding row. -/
def exRun0 : LedgerState :=
  ⟨[⟨1, "a@x.com", "Alice", "RC1", none, 200⟩],
   [⟨1, TxType.wallet_fund, 200, some "F0", TxStatus.success, some "P0",
     TxDetails.fund "paystack" 200 0⟩],
   []⟩

/-- exRun0 after an airtime purchase of 150 whose requery came back
'pending': the pending airtime row is logged, nothing is debited. -/
def exRun1 : LedgerState :=
  (purchase VtuKind.airtime exRun0 1 "mtn" "080" true none 150 "REQP"
    true "pending" true).1

/-- exRun1 after an unauthenticated webhook request whose body claims
charge.success/success for the pending airtime reference REQP. -/
def exRun2 : LedgerState :=
  (paystackWebhook exRun1 none "charge.success" "REQP" 150 "success" "X").1

/-! ## Claims -/

/-- C1 demonstration of the code bug: the spec invariant (balance equals
the signed sum of success-status transactions) is the clear intent, but
the code breaks it on a reachable run.  Starting from a consistent
ledger (balance 200 backed by a success funding row), a pending airtime
purchase of 150 is recorded (invariant still holds), and then a single
unauthenticated POST /webhook/paystack request whose body names the
pending airtime reference with status 'success' flips that debit-type
row to success while CREDITING its amount: the balance becomes 350 but
the signed sum becomes 50, and the webhook answers 200 success.
Independently, the Verify-funding credit is two separate auto-commit
UPDATEs with no surrounding transaction, so the state after only the
first statement (the status flip, `verifyFlipOnly`) also violates the
invariant. -/
theorem claim1_code_bug_invariant_broken :
    BalanceInvariant exRun0
    ∧ (purchase VtuKind.airtime exRun0 1 "mtn" "080" true none 150 "REQP"
        true "pending" true).2 = ⟨true, 200, true, "pending", none⟩
    ∧ BalanceInvariant exRun1
    ∧ (paystackWebhook exRun1 none "charge.success" "REQP" 150 "success" "X").2
        = ⟨200, true⟩
    ∧ ¬ BalanceInvariant exRun2
    ∧ BalanceInvariant exPendingFund
    ∧ ¬ BalanceInvariant (verifyFlipOnly exPendingFund "R1" "P") := by
  have h0 : BalanceInvariant exRun0 := by
    intro u hu
    fin_cases hu <;> simp [signedSum, signedAmount, isCreditRow]
  have h1 : exRun1 = ⟨[⟨1, "a@x.com", "Alice", "RC1", none, 200⟩],
      [⟨1, TxType.airtime, 150, some "REQP", TxStatus.pending, none,
        TxDetails.vtu "mtn" "080" none 150 "mtn" "REQP"⟩,
       ⟨1, TxType.wallet_fund, 200, some "F0", TxStatus.success, some "P0",
        TxDetails.fund "paystack" 200 0⟩],
      []⟩ := by rfl
  have h1inv : BalanceInvariant exRun1 := by
    rw [h1]
    intro u hu
    fin_cases hu <;> simp [signedSum, signedAmount, isCreditRow]
  have h2u : exRun2.users = [⟨1, "a@x.com", "Alice", "RC1", none, (200 : ℚ) + 150⟩] := by
    rfl
  have h2t : exRun2.transactions
      = [⟨1, TxType.airtime, 150, some "REQP", TxStatus.success, some "X",
          TxDetails.vtu "mtn" "080" none 150 "mtn" "REQP"⟩,
         ⟨1, TxType.wallet_fund, 200, some "F0", TxStatus.success, some "P0",
          TxDetails.fund "paystack" 200 0⟩] := by
    rfl
  have hneg : ¬ BalanceInvariant exRun2 := by
    intro h
    have hm : (⟨1, "a@x.com", "Alice", "RC1", none, (200 : ℚ) + 150⟩ : User)
        ∈ exRun2.users := by
      rw [h2u]
      simp
    have hb := h _ hm
    rw [h2t] at hb
    norm_num [signedSum, signedAmount, isCreditRow] at hb
  have hpf : BalanceInvariant exPendingFund := by
    intro u hu
    fin_cases hu <;> simp [exPendingFund, exFundRow, signedSum, signedAmount, isCreditRow]
  have hft : (verifyFlipOnly exPendingFund "R1" "P").transactions
      = [⟨1, TxType.wallet_fund, 985, some "R1", TxStatus.success, some "P",
          TxDetails.fund "paystack" 1000 15⟩] := by
    rfl
  have hneg2 : ¬ BalanceInvariant (verifyFlipOnly exPendingFund "R1" "P") := by
    intro h
    have hm : (⟨1, "a@x.com", "Alice", "RC1", none, (0 : ℚ)⟩ : User)
        ∈ (verifyFlipOnly exPendingFund "R1" "P").users := by
      show _ ∈ exUsers
      simp [exUsers]
    have hb := h _ hm
    rw [hft] at hb
    norm_num [signedSum, signedAmount, isCreditRow] at hb
  exact ⟨h0, rfl, h1inv, rfl, hneg, hpf, hneg2⟩

/-- How the spec classifies a sufficiently funded purchase as a function
of the provider's requery status: `delivered` settles atomically (and, on
a store failure, commits neither write), `pending`/`initiated` log a
pending row without debiting, and anything else logs a failed row without
debiting. -/
def PurchaseClassified (kind : VtuKind) (s : LedgerState) (userId : Nat)
    (network phone : String) (phoneValid : Bool) (variation_code : Option String)
    (amount : ℚ) (request_id : String) (txStatus : String) (u : User) (sid : String) : Prop :=
  (txStatus = "delivered" →
    purchase kind s userId network phone phoneValid variation_code amount request_id true txStatus true
      = (⟨updateBalance userId (-amount) s.users,
          vtuRow kind userId network phone variation_code amount sid request_id TxStatus.success
            :: s.transactions,
          s.referrals⟩,
         ⟨true, 200, true, "success", none⟩)
    ∧ balanceOf userId (purchase kind s userId network phone phoneValid variation_code
        amount request_id true txStatus true).1 = some (u.wallet_balance - amount)
    ∧ (purchase kind s userId network phone phoneValid variation_code
        amount request_id true txStatus false).1 = s)
  ∧ ((txStatus = "pending" ∨ txStatus = "initiated") →
    purchase kind s userId network phone phoneValid variation_code amount request_id true txStatus true
      = ({ s with transactions :=
            vtuRow kind userId network phone variation_code amount sid request_id TxStatus.pending
              :: s.transactions },
         ⟨true, 200, true, "pending", none⟩))
  ∧ (txStatus ≠ "delivered" ∧ txStatus ≠ "pending" ∧ txStatus ≠ "initiated" →
    purchase kind s userId network phone phoneValid variation_code amount request_id true txStatus true
      = ({ s with transactions :=
            vtuRow kind userId network phone variation_code amount sid request_id TxStatus.failed
              :: s.transactions },
         ⟨true, 200, false, "failed", none⟩))

/-- C2: for every airtime or data purchase with sufficient balance, the
settlement is fully determined by the provider's requery status: status
'delivered' atomically decrements the balance by the amount and writes a
success transaction (and if the store write fails neither half commits);
'pending'/'initiated' write a pending transaction with the balance
unchanged; any other status writes a failed transaction with the balance
unchanged. -/
theorem claim2_purchase_settlement_by_requery_status
    (kind : VtuKind) (s : LedgerState) (userId : Nat) (network phone : String)
    (phoneValid : Bool) (variation_code : Option String) (amount : ℚ)
    (request_id : String) (txStatus : String) (u : User) (sid : String)
    (hval : vtuValidation kind network phoneValid variation_code amount = true)
    (hu : findUser userId s.users = some u)
    (hbal : ¬ u.wallet_balance < amount)
    (hsvc : vtuServiceMap kind network = some sid) :
    PurchaseClassified kind s userId network phone phoneValid variation_code
      amount request_id txStatus u sid := by
  refine ⟨?_, ?_, ?_⟩
  · intro hd
    refine ⟨?_, ?_, ?_⟩
    · simp [purchase, hval, hu, hbal, hsvc, hd]
    · simp [purchase, hval, hu, hbal, hsvc, hd, balanceOf,
        findUser_updateBalance_self (-amount) hu, sub_eq_add_neg]
    · simp [purchase, hval, hu, hbal, hsvc, hd]
  · intro hpd
    have hd : ¬ txStatus = "delivered" := by
      rcases hpd with h | h <;> simp [h]
    simp [purchase, hval, hu, hbal, hsvc, hd, hpd]
  · intro hother
    obtain ⟨h1, h2, h3⟩ := hother
    simp [purchase, hval, hu, hbal, hsvc, h1, h2, h3]

theorem claim2_purchase_settlement_by_requery_status_witness :
    (vtuValidation VtuKind.airtime "mtn" true none 200 = true
      ∧ findUser 1 exFunded.users = some exAlice
      ∧ ¬ exAlice.wallet_balance < 200
      ∧ vtuServiceMap VtuKind.airtime "mtn" = some "mtn")
    ∧ PurchaseClassified VtuKind.airtime exFunded 1 "mtn" "080" true none
        200 "REQ1" "delivered" exAlice "mtn" := by
  refine ⟨⟨by decide, by rfl, by decide, by rfl⟩, ?_⟩
  exact claim2_purchase_settlement_by_requery_status VtuKind.airtime exFunded 1 "mtn" "080"
    true none 200 "REQ1" "delivered" exAlice "mtn" (by decide) (by rfl) (by decide) (by rfl)

/-- C3: for every user whose balance is strictly below the requested
amount, the airtime/data purchase fails with the insufficient-funds error
before any call to the fulfillment provider (`providerCalled = false`),
writes no transaction row and leaves the whole ledger state unchanged —
for every provider outcome and store behaviour. -/
theorem claim3_insufficient_balance_blocks_purchase
    (kind : VtuKind) (s : LedgerState) (userId : Nat) (network phone : String)
    (phoneValid : Bool) (variation_code : Option String) (amount : ℚ)
    (request_id : String) (requeryOk : Bool) (txStatus : String) (storeOk : Bool)
    (u : User)
    (hval : vtuValidation kind network phoneValid variation_code amount = true)
    (hu : findUser userId s.users = some u)
    (hbal : u.wallet_balance < amount) :
    purchase kind s userId network phone phoneValid variation_code amount
      request_id requeryOk txStatus storeOk
      = (s, ⟨false, 400, false, "", some "Insufficient wallet balance"⟩) := by
  simp [purchase, hval, hu, hbal]

theorem claim3_insufficient_balance_blocks_purchase_witness :
    (vtuValidation VtuKind.airtime "mtn" true none 600 = true
      ∧ vtuValidation VtuKind.data "mtn" true (some "mtn-1gb") 600 = true
      ∧ findUser 1 exFunded.users = some exAlice
      ∧ exAlice.wallet_balance < 600)
    ∧ purchase VtuKind.airtime exFunded 1 "mtn" "080" true none 600 "REQ2" true "delivered" true
        = (exFunded, ⟨false, 400, false, "", some "Insufficient wallet balance"⟩)
    ∧ purchase VtuKind.data exFunded 1 "mtn" "080" true (some "mtn-1gb") 600 "REQ3"
        true "delivered" true
        = (exFunded, ⟨false, 400, false, "", some "Insufficient wallet balance"⟩) := by
  refine ⟨⟨by decide, by decide, by rfl, by decide⟩, ?_, ?_⟩
  · exact claim3_insufficient_balance_blocks_purchase VtuKind.airtime exFunded 1 "mtn" "080"
      true none 600 "REQ2" true "delivered" true exAlice (by decide) (by rfl) (by decide)
  · exact claim3_insufficient_balance_blocks_purchase VtuKind.data exFunded 1 "mtn" "080"
      true (some "mtn-1gb") 600 "REQ3" true "delivered" true exAlice
      (by decide) (by rfl) (by decide)

/-- C9 counterexample: with the provider reporting 'delivered' and the
ledger-store write failing, the route still answers the caller with the
success payload (the claim says such an infrastructure failure must be
surfaced as a fatal operation error and never reported as success). -/
theorem claim9_counterexample :
    (purchase VtuKind.airtime exFunded 1 "mtn" "080" true none 200 "REQ1" true "delivered" false).2
      = ⟨true, 200, true, "success", none⟩
    ∧ (purchase VtuKind.airtime exFunded 1 "mtn" "080" true none 200 "REQ1"
        true "delivered" false).1 = exFunded := by
  constructor <;> rfl

/-- C9 amended: if the ledger-store write fails during the settled branch
of Debit-and-fulfill, the whole atomic unit rolls back so no partial
balance or log write survives, but the failure is caught and logged and
the caller still receives the success payload (it is not surfaced as a
fatal operation error). -/
theorem claim9_delivered_store_failure_rolls_back_but_reports_success
    (kind : VtuKind) (s : LedgerState) (userId : Nat) (network phone : String)
    (phoneValid : Bool) (variation_code : Option String) (amount : ℚ)
    (request_id : String) (u : User) (sid : String)
    (hval : vtuValidation kind network phoneValid variation_code amount = true)
    (hu : findUser userId s.users = some u)
    (hbal : ¬ u.wallet_balance < amount)
    (hsvc : vtuServiceMap kind network = some sid) :
    purchase kind s userId network phone phoneValid variation_code amount
      request_id true "delivered" false
      = (s, ⟨true, 200, true, "success", none⟩) := by
  simp [purchase, hval, hu, hbal, hsvc]

theorem claim9_delivered_store_failure_witness :
    (vtuValidation VtuKind.airtime "mtn" true none 200 = true
      ∧ findUser 1 exFunded.users = some exAlice
      ∧ ¬ exAlice.wallet_balance < 200
      ∧ vtuServiceMap VtuKind.airtime "mtn" = some "mtn")
    ∧ purchase VtuKind.airtime exFunded 1 "mtn" "080" true none 200 "REQ1" true "delivered" false
        = (exFunded, ⟨true, 200, true, "success", none⟩) := by
  refine ⟨⟨by decide, by rfl, by decide, by rfl⟩, ?_⟩
  exact claim9_delivered_store_failure_rolls_back_but_reports_success VtuKind.airtime exFunded
    1 "mtn" "080" true none 200 "REQ1" exAlice "mtn" (by decide) (by rfl) (by decide) (by rfl)

/-- A ledger holding one pending airtime transaction with reference REQP. -/
def exPendingAirtime : LedgerState :=
  ⟨[exAlice, ⟨2, "b@x.com", "Bob", "RC2", some "RC1", 0⟩],
   [⟨1, TxType.airtime, 200, some "REQP", TxStatus.pending, none,
     TxDetails.vtu "mtn" "080" none 200 "mtn" "REQP"⟩],
   []⟩

/-- C4 counterexample: with a pending airtime transaction REQP on file and
the provider now reporting it delivered, the requery operation leaves the
ledger state completely unchanged — the pending row is not transitioned to
success and no balance decrement is performed, contradicting the claimed
Reconcile-pending behaviour. -/
theorem claim4_counterexample :
    (requeryTransaction exPendingAirtime "REQP" (some "delivered")).1 = exPendingAirtime
    ∧ (requeryTransaction exPendingAirtime "REQP"
        (some "delivered")).1.transactions.find?
          (fun t => decide (t.reference = some "REQP"))
      = some ⟨1, TxType.airtime, 200, some "REQP", TxStatus.pending, none,
          TxDetails.vtu "mtn" "080" none 200 "mtn" "REQP"⟩ := by
  constructor <;> rfl

/-- C4 amended: the requery operation forwards the request id to the
provider and returns the provider's response; it performs no ledger
reads or writes at all, so no transaction ever transitions and no balance
is ever mutated by it (and repeated calls therefore trivially perform no
balance mutation). -/
theorem claim4_requery_is_pure_proxy (s : LedgerState) (request_id : String)
    (providerBody : Option String) :
    (requeryTransaction s request_id providerBody).1 = s :=
  requery_fst s request_id providerBody

/-- A gateway verification answer confirming charge R1. -/
def exGw : GatewayVerify := ⟨true, "success", "PSK1", 1000⟩

/-- C6 counterexample: after a first successful credit of reference R1,
the duplicate call — whether a second Verify-funding or a repeated
webhook delivery — is answered with a 404 error, not with a success
replay of the existing result. -/
theorem claim6_counterexample :
    verifyPayment (verifyPayment exPendingFund (some "R1") exGw).1 (some "R1") exGw
      = ((verifyPayment exPendingFund (some "R1") exGw).1,
         ⟨404, false, "Transaction not found"⟩)
    ∧ paystackWebhook
        (paystackWebhook exPendingFund none "charge.success" "R1" 985 "success" "PSK1").1
        none "charge.success" "R1" 985 "success" "PSK1"
      = ((paystackWebhook exPendingFund none "charge.success" "R1" 985 "success" "PSK1").1,
         ⟨404, false⟩) := by
  constructor <;> rfl

/-- After the settled credit flips the unique row carrying `ref` to
success (with any external reference `eref`), that reference still has
exactly one transaction row and no pending row with it remains. -/
theorem credit_flip_facts (s : LedgerState) (ref : String) (t : TxRow)
    (hfind : s.transactions.find? (isPendingWithRef ref) = some t)
    (huniq : s.transactions.countP (fun x => decide (x.reference = some ref)) = 1) :
    ∀ eref : String,
      (updateFirst (isPendingWithRef ref)
        (fun r => { r with status := TxStatus.success, external_reference := some eref })
        s.transactions).countP (fun x => decide (x.reference = some ref)) = 1
      ∧ (updateFirst (isPendingWithRef ref)
          (fun r => { r with status := TxStatus.success, external_reference := some eref })
          s.transactions).find? (isPendingWithRef ref) = none := by
  have hp : isPendingWithRef ref t = true := List.find?_some hfind
  rw [isPendingWithRef, Bool.and_eq_true, decide_eq_true_eq, decide_eq_true_eq] at hp
  obtain ⟨href, hpend⟩ := hp
  obtain ⟨hpt, as, bs, hsplit, has⟩ := (List.find?_eq_some).mp hfind
  have has2 : ∀ a ∈ as, isPendingWithRef ref a = false := by
    intro a ha
    simpa using has a ha
  have hcount0 :
      as.countP (fun x : TxRow => decide (x.reference = some ref)) = 0
      ∧ bs.countP (fun x : TxRow => decide (x.reference = some ref)) = 0 := by
    rw [hsplit, List.countP_append, List.countP_cons, href] at huniq
    simp at huniq
    omega
  have hnoref : ∀ a, a ∈ as ∨ a ∈ bs → (a.reference = some ref) → False := by
    intro a ha hr
    rcases ha with ha | ha
    · have := List.countP_eq_zero.mp hcount0.1 a ha
      simp [hr] at this
    · have := List.countP_eq_zero.mp hcount0.2 a ha
      simp [hr] at this
  intro eref
  have hupd : updateFirst (isPendingWithRef ref)
      (fun r => { r with status := TxStatus.success,
                         external_reference := some eref }) s.transactions
      = as ++ { t with status := TxStatus.success,
                       external_reference := some eref } :: bs := by
    rw [hsplit]
    exact updateFirst_append _ _ t bs hpt as has2
  rw [hupd]
  constructor
  · rw [List.countP_append, List.countP_cons, hcount0.1, hcount0.2]
    simpa using href
  · rw [List.find?_eq_none]
    intro x hx
    rcases List.mem_append.mp hx with hx | hx
    · simp only [isPendingWithRef, Bool.and_eq_true, decide_eq_true_eq]
      intro hcon
      exact hnoref x (Or.inl hx) hcon.1
    · rcases List.mem_cons.mp hx with hx | hx
      · subst hx
        simp [isPendingWithRef]
      · simp only [isPendingWithRef, Bool.and_eq_true, decide_eq_true_eq]
        intro hcon
        exact hnoref x (Or.inr hx) hcon.1

/-- C6 amended: calling the Credit path twice with the same reference —
whether the first credit lands via Verify-funding or via the gateway
webhook, and whether the duplicate arrives at Verify-funding or at the
webhook — yields exactly one transaction row for that reference and
exactly one balance increment (by the stored amount); every duplicate
call is answered with a 404 not-found error (verify: "Transaction not
found"; webhook: success:false) and leaves the state unchanged, so the
duplicate is NOT treated as a success replay returning the existing
result. -/
theorem claim6_duplicate_credit_is_error_not_replay
    (s : LedgerState) (ref : String) (gw gw2 : GatewayVerify) (t : TxRow)
    (sig sig2 : Option String) (amt amt2 : ℚ) (bstat2 data_id data_id2 : String)
    (hfind : s.transactions.find? (isPendingWithRef ref) = some t)
    (huniq : s.transactions.countP (fun x => decide (x.reference = some ref)) = 1)
    (hok : gw.api_ok = true) (hgs : gw.gw_status = "success")
    (hok2 : gw2.api_ok = true) :
    ((verifyPayment s (some ref) gw).2
      = ⟨200, true, "Payment verified and wallet funded successfully"⟩
    ∧ balanceOf t.user_id (verifyPayment s (some ref) gw).1
        = (balanceOf t.user_id s).map (fun b => b + t.amount)
    ∧ (verifyPayment s (some ref) gw).1.transactions.countP
        (fun x => decide (x.reference = some ref)) = 1
    ∧ verifyPayment (verifyPayment s (some ref) gw).1 (some ref) gw2
        = ((verifyPayment s (some ref) gw).1, ⟨404, false, "Transaction not found"⟩)
    ∧ paystackWebhook (verifyPayment s (some ref) gw).1 sig2 "charge.success"
        ref amt2 bstat2 data_id2
        = ((verifyPayment s (some ref) gw).1, ⟨404, false⟩))
    ∧ ((paystackWebhook s sig "charge.success" ref amt "success" data_id).2 = ⟨200, true⟩
    ∧ balanceOf t.user_id (paystackWebhook s sig "charge.success" ref amt "success" data_id).1
        = (balanceOf t.user_id s).map (fun b => b + t.amount)
    ∧ (paystackWebhook s sig "charge.success" ref amt "success" data_id).1.transactions.countP
        (fun x => decide (x.reference = some ref)) = 1
    ∧ paystackWebhook (paystackWebhook s sig "charge.success" ref amt "success" data_id).1
        sig2 "charge.success" ref amt2 bstat2 data_id2
        = ((paystackWebhook s sig "charge.success" ref amt "success" data_id).1, ⟨404, false⟩)
    ∧ verifyPayment (paystackWebhook s sig "charge.success" ref amt "success" data_id).1
        (some ref) gw2
        = ((paystackWebhook s sig "charge.success" ref amt "success" data_id).1,
           ⟨404, false, "Transaction not found"⟩)) := by
  have key := credit_flip_facts s ref t hfind huniq
  have hbal : ∀ txs : List TxRow, ∀ refs : List Referral,
      balanceOf t.user_id ⟨updateBalance t.user_id t.amount s.users, txs, refs⟩
        = (balanceOf t.user_id s).map (fun b => b + t.amount) := by
    intro txs refs
    simp only [balanceOf]
    rw [findUser_updateBalance]
    cases hu : findUser t.user_id s.users with
    | none => simp
    | some u =>
      have hid : u.id = t.user_id := findUser_id hu
      simp [hid]
  have hv : verifyPayment s (some ref) gw
      = (⟨updateBalance t.user_id t.amount s.users,
          updateFirst (isPendingWithRef ref)
            (fun r => { r with status := TxStatus.success,
                               external_reference := some gw.gw_reference })
            s.transactions,
          s.referrals⟩,
         ⟨200, true, "Payment verified and wallet funded successfully"⟩) := by
    simp only [verifyPayment, hok, Bool.not_true, Bool.false_eq_true, if_false, hfind, hgs,
      if_true]
  have hw : paystackWebhook s sig "charge.success" ref amt "success" data_id
      = (⟨updateBalance t.user_id t.amount s.users,
          updateFirst (isPendingWithRef ref)
            (fun r => { r with status := TxStatus.success,
                               external_reference := some data_id })
            s.transactions,
          s.referrals⟩,
         ⟨200, true⟩) := by
    simp [paystackWebhook, hfind]
  refine ⟨⟨by rw [hv], ?_, ?_, ?_, ?_⟩, ⟨by rw [hw], ?_, ?_, ?_, ?_⟩⟩
  · rw [hv]
    exact hbal _ _
  · rw [hv]
    exact (key gw.gw_reference).1
  · rw [hv]
    simp only [verifyPayment, hok2, Bool.not_true, Bool.false_eq_true, if_false]
    rw [(key gw.gw_reference).2]
  · rw [hv]
    simp only [paystackWebhook, if_pos]
    rw [(key gw.gw_reference).2]
  · rw [hw]
    exact hbal _ _
  · rw [hw]
    exact (key data_id).1
  · rw [hw]
    simp only [paystackWebhook, if_pos]
    rw [(key data_id).2]
  · rw [hw]
    simp only [verifyPayment, hok2, Bool.not_true, Bool.false_eq_true, if_false]
    rw [(key data_id).2]

theorem claim6_duplicate_credit_is_error_not_replay_witness :
    (exPendingFund.transactions.find? (isPendingWithRef "R1") = some exFundRow
      ∧ exPendingFund.transactions.countP (fun x => decide (x.reference = some "R1")) = 1
      ∧ exGw.api_ok = true ∧ exGw.gw_status = "success")
    ∧ (((verifyPayment exPendingFund (some "R1") exGw).2
        = ⟨200, true, "Payment verified and wallet funded successfully"⟩
      ∧ balanceOf exFundRow.user_id (verifyPayment exPendingFund (some "R1") exGw).1
          = (balanceOf exFundRow.user_id exPendingFund).map (fun b => b + exFundRow.amount)
      ∧ (verifyPayment exPendingFund (some "R1") exGw).1.transactions.countP
          (fun x => decide (x.reference = some "R1")) = 1
      ∧ verifyPayment (verifyPayment exPendingFund (some "R1") exGw).1 (some "R1") exGw
          = ((verifyPayment exPendingFund (some "R1") exGw).1,
             ⟨404, false, "Transaction not found"⟩)
      ∧ paystackWebhook (verifyPayment exPendingFund (some "R1") exGw).1 (some "sig")
          "charge.success" "R1" 77 "success" "PSK2"
          = ((verifyPayment exPendingFund (some "R1") exGw).1, ⟨404, false⟩))
    ∧ ((paystackWebhook exPendingFund none "charge.success" "R1" 985 "success" "PSK1").2
        = ⟨200, true⟩
      ∧ balanceOf exFundRow.user_id
          (paystackWebhook exPendingFund none "charge.success" "R1" 985 "success" "PSK1").1
          = (balanceOf exFundRow.user_id exPendingFund).map (fun b => b + exFundRow.amount)
      ∧ (paystackWebhook exPendingFund none "charge.success" "R1" 985
          "success" "PSK1").1.transactions.countP
          (fun x => decide (x.reference = some "R1")) = 1
      ∧ paystackWebhook
          (paystackWebhook exPendingFund none "charge.success" "R1" 985 "success" "PSK1").1
          (some "sig") "charge.success" "R1" 77 "success" "PSK2"
          = ((paystackWebhook exPendingFund none "charge.success" "R1" 985 "success" "PSK1").1,
             ⟨404, false⟩)
      ∧ verifyPayment
          (paystackWebhook exPendingFund none "charge.success" "R1" 985 "success" "PSK1").1
          (some "R1") exGw
          = ((paystackWebhook exPendingFund none "charge.success" "R1" 985 "success" "PSK1").1,
             ⟨404, false, "Transaction not found"⟩))) := by
  refine ⟨⟨by rfl, by decide, rfl, rfl⟩, ?_⟩
  exact claim6_duplicate_credit_is_error_not_replay exPendingFund "R1" exGw exGw exFundRow
    none (some "sig") 985 77 "success" "PSK1" "PSK2" (by rfl) (by decide) rfl rfl rfl

/-- Rewriting the first hit leaves it the first hit when the rewrite
preserves the predicate. -/
theorem find?_updateFirst_self {α : Type} (p : α → Bool) (f : α → α) :
    ∀ (l : List α) (t : α), l.find? p = some t → p (f t) = true →
      (updateFirst p f l).find? p = some (f t) := by
  intro l
  induction l with
  | nil => intro t h _; simp [List.find?] at h
  | cons x xs ih =>
    intro t h hpf
    cases hp : p x with
    | true =>
      simp only [List.find?_cons, hp, Option.some.injEq] at h
      subst h
      simp [updateFirst, hp, List.find?_cons, hpf]
    | false =>
      simp only [List.find?_cons, hp] at h
      simp only [updateFirst, hp, Bool.false_eq_true, if_false]
      rw [List.find?_cons_of_neg _ (by simp [hp]), ih t h hpf]

/-- Balance updates do not move or change the row found by a
referral-code lookup (they only touch `wallet_balance`). -/
theorem findCode_updateBalance (code : String) (uid : Nat) (d : ℚ) (us : List User) :
    (updateBalance uid d us).find? (fun v => decide (v.referral_code = code))
      = (us.find? (fun v => decide (v.referral_code = code))).map
          (fun u => if u.id = uid then { u with wallet_balance := u.wallet_balance + d } else u) := by
  have hcomp : ((fun v : User => decide (v.referral_code = code)) ∘
      (fun u => if u.id = uid then { u with wallet_balance := u.wallet_balance + d } else u))
      = fun v : User => decide (v.referral_code = code) := by
    funext u
    by_cases h : u.id = uid <;> simp [Function.comp, h]
  unfold updateBalance
  rw [List.find?_map, hcomp]

/-- C7 counterexample: processing the referral reward in the fresh ledger
(Bob referred by Alice, referral pending) inserts the reward transaction
with reference NULL — there is no deterministic reference derived from
the referral pair (the INSERT carries no reference column at all). -/
theorem claim7_counterexample :
    ((processReward exInit 2).1.transactions.map TxRow.reference) = [none]
    ∧ (processReward exInit 2).2
        = ⟨200, true, "Referral reward processed successfully"⟩ := by
  constructor <;> rfl

/-- C7 amended: for every referred user with a pending referral row,
Process-reward credits the referrer exactly once with the fixed 200
reward: the first call, in one atomic step, prepends a success
`wallet_fund` transaction row whose reference is NULL (not a reference
derived from the referral pair), increments the referrer's balance by
200 and flips the referral to paid; the second call is a no-op returning
"Reward already processed". -/
theorem claim7_reward_once_no_reference
    (s : LedgerState) (userId : Nat) (u referrer : User) (code : String)
    (refRow : Referral)
    (hu : findUser userId s.users = some u)
    (hrb : u.referred_by = some code)
    (href : s.users.find? (fun v => decide (v.referral_code = code)) = some referrer)
    (hrow : s.referrals.find?
      (fun r => decide (r.referrer_id = referrer.id) && decide (r.referred_id = userId))
      = some refRow)
    (hnp : ¬ refRow.status = RefStatus.paid) :
    (processReward s userId).2 = ⟨200, true, "Referral reward processed successfully"⟩
    ∧ (processReward s userId).1.transactions
        = ⟨referrer.id, TxType.wallet_fund, 200, none, TxStatus.success, none,
           TxDetails.referralReward userId⟩ :: s.transactions
    ∧ balanceOf referrer.id (processReward s userId).1
        = (balanceOf referrer.id s).map (fun b => b + 200)
    ∧ (processReward s userId).1.referrals.find?
        (fun r => decide (r.referrer_id = referrer.id) && decide (r.referred_id = userId))
        = some { refRow with status := RefStatus.paid }
    ∧ processReward (processReward s userId).1 userId
        = ((processReward s userId).1, ⟨200, true, "Reward already processed"⟩) := by
  have hfirst :
      processReward s userId
        = (⟨updateBalance referrer.id 200 s.users,
            ⟨referrer.id, TxType.wallet_fund, 200, none, TxStatus.success, none,
             TxDetails.referralReward userId⟩ :: s.transactions,
            updateFirst
              (fun r => decide (r.referrer_id = referrer.id) && decide (r.referred_id = userId))
              (fun r => { r with status := RefStatus.paid }) s.referrals⟩,
           ⟨200, true, "Referral reward processed successfully"⟩) := by
    simp [processReward, hu, hrb, href, hrow, hnp]
  have hrowp : (fun r : Referral =>
      decide (r.referrer_id = referrer.id) && decide (r.referred_id = userId))
      { refRow with status := RefStatus.paid } = true := by
    have hp := List.find?_some hrow
    simpa using hp
  have hflip := find?_updateFirst_self
    (fun r : Referral => decide (r.referrer_id = referrer.id) && decide (r.referred_id = userId))
    (fun r => { r with status := RefStatus.paid }) s.referrals refRow hrow hrowp
  refine ⟨by rw [hfirst], by rw [hfirst], ?_, ?_, ?_⟩
  · rw [hfirst]
    simp only [balanceOf]
    rw [findUser_updateBalance]
    cases hfr : findUser referrer.id s.users with
    | none => simp
    | some w =>
      have hid : w.id = referrer.id := findUser_id hfr
      simp [hid]
  · rw [hfirst]
    exact hflip
  · rw [hfirst]
    have hu2 : findUser userId (updateBalance referrer.id 200 s.users)
        = some (if u.id = referrer.id
            then { u with wallet_balance := u.wallet_balance + 200 } else u) := by
      rw [findUser_updateBalance, hu]
      rfl
    have hrb2 : (if u.id = referrer.id
        then { u with wallet_balance := u.wallet_balance + 200 } else u).referred_by
        = some code := by
      by_cases h : u.id = referrer.id <;> simp [h, hrb]
    have href2 : (updateBalance referrer.id 200 s.users).find?
        (fun v => decide (v.referral_code = code))
        = some (if referrer.id = referrer.id
            then { referrer with wallet_balance := referrer.wallet_balance + 200 }
            else referrer) := by
      rw [findCode_updateBalance, href]
      rfl
    have hid2 : (if referrer.id = referrer.id
        then { referrer with wallet_balance := referrer.wallet_balance + 200 }
        else referrer).id = referrer.id := by
      simp
    simp [processReward, hu2, hrb2, href2, hid2, hflip]

/-- Alice's and Bob's user rows in the fresh ledger. -/
def exAlice0 : User := ⟨1, "a@x.com", "Alice", "RC1", none, 0⟩

def exBob0 : User := ⟨2, "b@x.com", "Bob", "RC2", some "RC1", 0⟩

theorem claim7_reward_once_no_reference_witness :
    (findUser 2 exInit.users = some exBob0
      ∧ exBob0.referred_by = some "RC1"
      ∧ exInit.users.find? (fun v => decide (v.referral_code = "RC1")) = some exAlice0
      ∧ exInit.referrals.find?
          (fun r => decide (r.referrer_id = exAlice0.id) && decide (r.referred_id = 2))
          = some ⟨1, 2, 200, RefStatus.pending⟩
      ∧ ¬ (⟨1, 2, 200, RefStatus.pending⟩ : Referral).status = RefStatus.paid)
    ∧ ((processReward exInit 2).2 = ⟨200, true, "Referral reward processed successfully"⟩
      ∧ (processReward exInit 2).1.transactions
          = ⟨exAlice0.id, TxType.wallet_fund, 200, none, TxStatus.success, none,
             TxDetails.referralReward 2⟩ :: exInit.transactions
      ∧ balanceOf exAlice0.id (processReward exInit 2).1
          = (balanceOf exAlice0.id exInit).map (fun b => b + 200)
      ∧ (processReward exInit 2).1.referrals.find?
          (fun r => decide (r.referrer_id = exAlice0.id) && decide (r.referred_id = 2))
          = some ⟨1, 2, 200, RefStatus.paid⟩
      ∧ processReward (processReward exInit 2).1 2
          = ((processReward exInit 2).1, ⟨200, true, "Reward already processed"⟩)) := by
  refine ⟨⟨rfl, rfl, rfl, rfl, by decide⟩, ?_⟩
  exact claim7_reward_once_no_reference exInit 2 exBob0 exAlice0 "RC1"
    ⟨1, 2, 200, RefStatus.pending⟩ rfl rfl rfl rfl (by decide)

/-- With primary-key-unique ids, looking a member row up by its own id
finds exactly that row. -/
theorem findUser_of_mem_nodup (us : List User)
    (hnd : (us.map User.id).Nodup) (u : User) (hu : u ∈ us) :
    findUser u.id us = some u := by
  induction us with
  | nil => cases hu
  | cons x xs ih =>
    rcases List.mem_cons.mp hu with h | h
    · subst h
      simp [findUser]
    · have hx : ¬ x.id = u.id := by
        intro he
        exact (List.nodup_cons.mp hnd).1 (he ▸ List.mem_map_of_mem User.id h)
      unfold findUser
      rw [List.find?_cons_of_neg _ (by simpa using hx)]
      exact ih (List.nodup_cons.mp hnd).2 h

/-- C5: for every Transfer where the recipient exists, is not the sender,
and the sender's balance covers the amount, the operation returns 200 and
in one atomic state decrements the sender by the amount, increments the
recipient by the amount and prepends exactly the two success
`p2p_transfer` legs with the correlated references `<base>_DEBIT` and
`<base>_CREDIT`; a transfer addressed to the sender's own email is
rejected with a 400 and no state change. -/
theorem claim5_transfer_atomic_two_legs
    (s : LedgerState) (senderId : Nat) (recipient_email : String) (amount : ℚ)
    (referenceBase : String) (sender recipient : User)
    (hndp : (s.users.map User.id).Nodup)
    (hs : findUser senderId s.users = some sender)
    (hne : ¬ sender.email = recipient_email)
    (hr : s.users.find? (fun u => decide (u.email = recipient_email)) = some recipient)
    (hbal : ¬ sender.wallet_balance < amount)
    (hamt : ¬ amount < 1) :
    (transferFunds s senderId recipient_email amount referenceBase).2 = ⟨200, true⟩
    ∧ balanceOf senderId (transferFunds s senderId recipient_email amount referenceBase).1
        = some (sender.wallet_balance - amount)
    ∧ balanceOf recipient.id (transferFunds s senderId recipient_email amount referenceBase).1
        = some (recipient.wallet_balance + amount)
    ∧ (transferFunds s senderId recipient_email amount referenceBase).1.transactions
        = ⟨recipient.id, TxType.p2p_transfer, amount, some (referenceBase ++ "_CREDIT"),
            TxStatus.success, none, TxDetails.transferCredit sender.email sender.full_name⟩
          :: ⟨senderId, TxType.p2p_transfer, amount, some (referenceBase ++ "_DEBIT"),
              TxStatus.success, none, TxDetails.transferDebit recipient_email recipient.full_name⟩
          :: s.transactions
    ∧ (transferFunds s senderId recipient_email amount referenceBase).1.referrals = s.referrals
    ∧ transferFunds s senderId sender.email amount referenceBase = (s, ⟨400, false⟩) := by
  have hrecmail : recipient.email = recipient_email := by
    simpa using List.find?_some hr
  have hsid : sender.id = senderId := findUser_id hs
  have hsmem : sender ∈ s.users := List.mem_of_find?_eq_some hs
  have hrmem : recipient ∈ s.users := List.mem_of_find?_eq_some hr
  have hneq : ¬ recipient.id = senderId := by
    intro he
    have heq : sender = recipient :=
      List.inj_on_of_nodup_map hndp hsmem hrmem (by rw [hsid, he])
    exact hne (heq ▸ hrecmail)
  have htr : transferFunds s senderId recipient_email amount referenceBase
      = (⟨updateBalance recipient.id amount (updateBalance senderId (-amount) s.users),
          ⟨recipient.id, TxType.p2p_transfer, amount, some (referenceBase ++ "_CREDIT"),
            TxStatus.success, none, TxDetails.transferCredit sender.email sender.full_name⟩
          :: ⟨senderId, TxType.p2p_transfer, amount, some (referenceBase ++ "_DEBIT"),
              TxStatus.success, none, TxDetails.transferDebit recipient_email recipient.full_name⟩
          :: s.transactions,
          s.referrals⟩,
         ⟨200, true⟩) := by
    simp [transferFunds, hamt, hs, hne, hr, hbal]
  refine ⟨by rw [htr], ?_, ?_, by rw [htr], by rw [htr], ?_⟩
  · rw [htr]
    simp only [balanceOf]
    rw [findUser_updateBalance_other amount (fun he => hneq he.symm),
        findUser_updateBalance_self (-amount) hs]
    simp [sub_eq_add_neg]
  · rw [htr]
    simp only [balanceOf]
    have hfr : findUser recipient.id (updateBalance senderId (-amount) s.users)
        = some recipient := by
      rw [findUser_updateBalance_other (-amount) hneq]
      exact findUser_of_mem_nodup s.users hndp recipient hrmem
    rw [findUser_updateBalance_self amount hfr]
    simp
  · simp [transferFunds, hamt, hs]

/-- Alice holding 1000 and Bob holding 0, no transactions yet. -/
def exAliceK : User := ⟨1, "a@x.com", "Alice", "RC1", none, 1000⟩

def exTransferState : LedgerState := ⟨[exAliceK, exBob0], [], []⟩

theorem claim5_transfer_atomic_two_legs_witness :
    ((exTransferState.users.map User.id).Nodup
      ∧ findUser 1 exTransferState.users = some exAliceK
      ∧ ¬ exAliceK.email = "b@x.com"
      ∧ exTransferState.users.find? (fun u => decide (u.email = "b@x.com")) = some exBob0
      ∧ ¬ exAliceK.wallet_balance < 300
      ∧ ¬ (300 : ℚ) < 1)
    ∧ ((transferFunds exTransferState 1 "b@x.com" 300 "ZPP").2 = ⟨200, true⟩
      ∧ balanceOf 1 (transferFunds exTransferState 1 "b@x.com" 300 "ZPP").1
          = some (exAliceK.wallet_balance - 300)
      ∧ balanceOf exBob0.id (transferFunds exTransferState 1 "b@x.com" 300 "ZPP").1
          = some (exBob0.wallet_balance + 300)
      ∧ (transferFunds exTransferState 1 "b@x.com" 300 "ZPP").1.transactions
          = ⟨exBob0.id, TxType.p2p_transfer, 300, some ("ZPP" ++ "_CREDIT"),
              TxStatus.success, none, TxDetails.transferCredit exAliceK.email exAliceK.full_name⟩
            :: ⟨1, TxType.p2p_transfer, 300, some ("ZPP" ++ "_DEBIT"),
                TxStatus.success, none, TxDetails.transferDebit "b@x.com" exBob0.full_name⟩
            :: exTransferState.transactions
      ∧ (transferFunds exTransferState 1 "b@x.com" 300 "ZPP").1.referrals
          = exTransferState.referrals
      ∧ transferFunds exTransferState 1 exAliceK.email 300 "ZPP" = (exTransferState, ⟨400, false⟩)) := by
  refine ⟨⟨by decide, rfl, by decide, rfl, by decide, by decide⟩, ?_⟩
  exact claim5_transfer_atomic_two_legs exTransferState 1 "b@x.com" 300 "ZPP"
    exAliceK exBob0 (by decide) rfl (by decide) rfl (by decide) (by decide)

/-- C8 counterexample: for gross amount 1000 the fee branch taken is the
sub-2500 one, so the fee is 1000 x 0.015 = 15 and the stored pending net
amount is 985, not the claimed 885 = 1000 - (1000 x 0.015 + 100). -/
theorem claim8_counterexample :
    paystackFee 1000 = 15
    ∧ (fundWallet exInit 1 1000 "R1" true).1.transactions.map TxRow.amount = [(985 : ℚ)]
    ∧ (985 : ℚ) ≠ 885 := by
  refine ⟨by norm_num [paystackFee], ?_, by norm_num⟩
  norm_num [fundWallet, exInit, exUsers, findUser, paystackFee]

/-- C8 amended: Initiate-funding with gross amount 1000 falls below the
2500 threshold of the tiered fee schedule, so the fee is 15 (1.5 percent
only, no flat 100) and the stored pending wallet_fund amount is 985; a
subsequent successful Verify-funding increments the balance by exactly
985, not 1000 (and not 885). -/
theorem claim8_gross_1000_credits_985
    (s : LedgerState) (userId : Nat) (reference : String) (u : User) (gw : GatewayVerify)
    (hu : findUser userId s.users = some u)
    (hok : gw.api_ok = true) (hgs : gw.gw_status = "success") :
    (fundWallet s userId 1000 reference true).1.transactions
        = ⟨userId, TxType.wallet_fund, 985, some reference, TxStatus.pending, none,
           TxDetails.fund "paystack" 1000 15⟩ :: s.transactions
    ∧ balanceOf userId
        (verifyPayment (fundWallet s userId 1000 reference true).1 (some reference) gw).1
        = (balanceOf userId s).map (fun b => b + 985) := by
  have hfee : paystackFee 1000 = 15 := by norm_num [paystackFee]
  have hnet : (1000 : ℚ) - paystackFee 1000 = 985 := by rw [hfee]; norm_num
  have hrow : (fundWallet s userId 1000 reference true).1
      = { s with transactions :=
          ⟨userId, TxType.wallet_fund, 985, some reference, TxStatus.pending, none,
           TxDetails.fund "paystack" 1000 15⟩ :: s.transactions } := by
    simp [fundWallet, hu, hfee, hnet]
    norm_num
  refine ⟨by rw [hrow], ?_⟩
  rw [hrow]
  have hfind : ({ s with transactions :=
      (⟨userId, TxType.wallet_fund, 985, some reference, TxStatus.pending, none,
        TxDetails.fund "paystack" 1000 15⟩ : TxRow) :: s.transactions } :
      LedgerState).transactions.find? (isPendingWithRef reference)
      = some ⟨userId, TxType.wallet_fund, 985, some reference, TxStatus.pending, none,
          TxDetails.fund "paystack" 1000 15⟩ := by
    simp [isPendingWithRef]
  simp only [verifyPayment, hok, Bool.not_true, Bool.false_eq_true, if_false, hfind, hgs,
    if_true, balanceOf]
  rw [findUser_updateBalance_self 985 (by simpa [findUser] using hu)]
  simp [hu]

theorem claim8_gross_1000_credits_985_witness :
    (findUser 1 exInit.users = some exAlice0
      ∧ exGw.api_ok = true ∧ exGw.gw_status = "success")
    ∧ ((fundWallet exInit 1 1000 "R1" true).1.transactions
        = ⟨1, TxType.wallet_fund, 985, some "R1", TxStatus.pending, none,
           TxDetails.fund "paystack" 1000 15⟩ :: exInit.transactions
      ∧ balanceOf 1 (verifyPayment (fundWallet exInit 1 1000 "R1" true).1 (some "R1") exGw).1
          = (balanceOf 1 exInit).map (fun b => b + 985)) := by
  refine ⟨⟨rfl, rfl, rfl⟩, ?_⟩
  exact claim8_gross_1000_credits_985 exInit 1 "R1" exAlice0 exGw rfl rfl rfl

/-- C10: a Paystack-webhook request whose body carries event
'charge.success', status 'success' and a reference matching a pending
transaction marks that stored row success and credits the ROW's stored
amount to the row's owner; the outcome is identical for any signature
header and any amount reported in the body (the handler performs no
signature verification, authentication or gateway re-verification), so
the credit is determined entirely by the request body and the stored
ledger state. -/
theorem claim10_webhook_credits_stored_amount_unauthenticated
    (s : LedgerState) (body_reference data_id : String) (t : TxRow)
    (sig sig' : Option String) (amt amt' : ℚ)
    (hfind : s.transactions.find? (isPendingWithRef body_reference) = some t) :
    paystackWebhook s sig "charge.success" body_reference amt "success" data_id
      = paystackWebhook s sig' "charge.success" body_reference amt' "success" data_id
    ∧ (paystackWebhook s sig "charge.success" body_reference amt "success" data_id).2
        = ⟨200, true⟩
    ∧ balanceOf t.user_id
        (paystackWebhook s sig "charge.success" body_reference amt "success" data_id).1
        = (balanceOf t.user_id s).map (fun b => b + t.amount)
    ∧ ∃ pre post, s.transactions = pre ++ t :: post
        ∧ (paystackWebhook s sig "charge.success" body_reference amt "success" data_id).1.transactions
            = pre ++ { t with status := TxStatus.success,
                              external_reference := some data_id } :: post := by
  have hpt : isPendingWithRef body_reference t = true := List.find?_some hfind
  obtain ⟨_, pre, post, hsplit, hpre⟩ := (List.find?_eq_some).mp hfind
  have hpre' : ∀ a ∈ pre, isPendingWithRef body_reference a = false := by
    intro a ha
    simpa using hpre a ha
  have hstep : paystackWebhook s sig "charge.success" body_reference amt "success" data_id
      = ({ s with
            transactions := updateFirst (isPendingWithRef body_reference)
              (fun r => { r with status := TxStatus.success,
                                 external_reference := some data_id })
              s.transactions,
            users := updateBalance t.user_id t.amount s.users },
         ⟨200, true⟩) := by
    simp [paystackWebhook, hfind]
  refine ⟨rfl, by rw [hstep], ?_, pre, post, hsplit, ?_⟩
  · rw [hstep]
    simp only [balanceOf]
    rw [findUser_updateBalance]
    cases hw : findUser t.user_id s.users with
    | none => simp
    | some w =>
      have hid : w.id = t.user_id := findUser_id hw
      simp [hid]
  · rw [hstep]
    show updateFirst (isPendingWithRef body_reference) _ s.transactions = _
    rw [hsplit]
    exact updateFirst_append _ _ t post hpt pre hpre'

theorem claim10_webhook_credits_stored_amount_unauthenticated_witness :
    exPendingFund.transactions.find? (isPendingWithRef "R1") = some exFundRow
    ∧ (paystackWebhook exPendingFund none "charge.success" "R1" 77 "success" "PSK9"
        = paystackWebhook exPendingFund (some "sig") "charge.success" "R1" 123456 "success" "PSK9"
      ∧ (paystackWebhook exPendingFund none "charge.success" "R1" 77 "success" "PSK9").2
          = ⟨200, true⟩
      ∧ balanceOf exFundRow.user_id
          (paystackWebhook exPendingFund none "charge.success" "R1" 77 "success" "PSK9").1
          = (balanceOf exFundRow.user_id exPendingFund).map (fun b => b + exFundRow.amount)
      ∧ ∃ pre post, exPendingFund.transactions = pre ++ exFundRow :: post
          ∧ (paystackWebhook exPendingFund none "charge.success" "R1" 77
              "success" "PSK9").1.transactions
              = pre ++ { exFundRow with status := TxStatus.success, external_reference := some "PSK9" } :: post) :=
  ⟨rfl, claim10_webhook_credits_stored_amount_unauthenticated exPendingFund "R1" "PSK9"
    exFundRow none (some "sig") 77 123456 rfl⟩

end Zippy
